import Mathlib

/-!
Shallow embedding of the `Users` app data model of the repository
`Por-amor-al-arte-V2` (file `Por_amor_al_Arte_V2/Users/models.py`).

The database is modelled as explicit lists of saved rows; unsaved model
instances carry `pk : Option Nat` (`none` before the first save, like a
fresh Django instance).  Model methods (`clean`, `save`, deletes) become
pure functions threading the database state.  Fields that no claim is
about (image file paths, timestamps) are omitted from the row types.
`django.utils.text.slugify` is embedded for ASCII input, on which the
NFKD/ASCII normalisation step of the library is the identity.
-/

deriving instance DecidableEq for Except

/-- Errors surfaced by the persistence layer: the `ValidationError` of Django
(with its message), uniqueness violations (`IntegrityError` on a unique
column, named), and `ProtectedError` from `on_delete=PROTECT`. -/
inductive DomainError where
  | validationError (msg : String)
  | uniquenessViolation (field : String)
  | protectedError
deriving DecidableEq

/-- Saved row of `CustomUser` (models.py lines 9-17): `email` is unique, and
`username` is unique via `AbstractUser`. -/
structure UserRow where
  pk : Nat
  username : String
  email : String
deriving DecidableEq

/-- Saved row of `LineaArtistica` (models.py lines 22-30). -/
structure LineaRow where
  pk : Nat
  nombre : String
deriving DecidableEq

/-- Saved row of `Genero` (models.py lines 32-43): `linea` is a foreign key
to `LineaArtistica` with `on_delete=PROTECT`. -/
structure GeneroRow where
  pk : Nat
  nombre : String
  linea : Nat
deriving DecidableEq

/-- Saved row of `ArtistProfile` (models.py lines 48-74): `user` is a
one-to-one key to `CustomUser` with `on_delete=CASCADE`. -/
structure ArtistProfileRow where
  pk : Nat
  user : Nat
  nombre_artistico : Option String
  descripcion : Option String
deriving DecidableEq

/-- Saved row of `Agrupacion` (models.py lines 79-113): `administrador` is a
foreign key to `CustomUser` with `on_delete=CASCADE`; `slug` is unique. -/
structure AgrupacionRow where
  pk : Nat
  nombre : String
  slug : String
  administrador : Nat
  descripcion : Option String
deriving DecidableEq

/-- Saved row of `ArtistImage` (models.py lines 118-139): `artist` is a
foreign key to `ArtistProfile` with `on_delete=CASCADE`. -/
structure ArtistImageRow where
  pk : Nat
  artist : Nat
  titulo : Option String
  orden : Nat
deriving DecidableEq

/-- Saved row of `GroupImage` (models.py lines 141-162): `agrupacion` is a
foreign key to `Agrupacion` with `on_delete=CASCADE`. -/
structure GroupImageRow where
  pk : Nat
  agrupacion : Nat
  titulo : Option String
  orden : Nat
deriving DecidableEq

/-- Saved row of `ArtistSocial` (models.py lines 176-183). -/
structure ArtistSocialRow where
  pk : Nat
  artist : Nat
  plataforma : String
  url : String
deriving DecidableEq

/-- Saved row of `GroupSocial` (models.py lines 185-192). -/
structure GroupSocialRow where
  pk : Nat
  agrupacion : Nat
  plataforma : String
  url : String
deriving DecidableEq

/-- The whole database state: one list of rows per table, plus the three
many-to-many join tables (`ArtistProfile.generos`, `Agrupacion.generos`,
`Agrupacion.miembros`) as lists of key pairs (owner pk, target pk). -/
structure DB where
  users : List UserRow
  lineas : List LineaRow
  generos : List GeneroRow
  artistProfiles : List ArtistProfileRow
  agrupaciones : List AgrupacionRow
  artistImages : List ArtistImageRow
  groupImages : List GroupImageRow
  artistSocials : List ArtistSocialRow
  groupSocials : List GroupSocialRow
  profileGeneros : List (Nat × Nat)
  agrupacionGeneros : List (Nat × Nat)
  agrupacionMiembros : List (Nat × Nat)
deriving DecidableEq

/-- Fresh primary key the storage engine assigns on INSERT: one more than
the largest key in the table. -/
def freshPk (pks : List Nat) : Nat := pks.foldr max 0 + 1

/-- Write a row that already has a primary key: UPDATE the row with that
key if it exists, otherwise INSERT (the update-or-insert Django performs on
save with a set pk). -/
def upsert {α : Type} (pk : α → Nat) (row : α) (l : List α) : List α :=
  if l.any (fun r => decide (pk r = pk row)) then
    l.map (fun r => if pk r = pk row then row else r)
  else l ++ [row]

/-! ### `django.utils.text.slugify`, for ASCII input

`slugify(value)` lower-cases, deletes every character that is not a word
character (alphanumeric or underscore), whitespace or a hyphen, collapses
every run of hyphens/whitespace to a single hyphen, and strips leading and
trailing hyphens and underscores. -/

/-- Characters kept by the first substitution of `slugify`
(`re.sub` removing everything outside word chars, whitespace, hyphen). -/
def slugifyKeep (c : Char) : Bool :=
  c.isAlphanum || c == '_' || c.isWhitespace || c == '-'

/-- Characters matched by the second substitution of `slugify`
(runs of hyphens and whitespace become a single hyphen). -/
def isSep (c : Char) : Bool := c == '-' || c.isWhitespace

/-- Replace every maximal run of separator characters by one hyphen
(the `re.sub` of a separator-run to a single hyphen in `slugify`). -/
def collapseSeps : List Char → List Char
  | [] => []
  | [c] => if isSep c then ['-'] else [c]
  | c :: d :: rest =>
    if isSep c && isSep d then collapseSeps (d :: rest)
    else (if isSep c then '-' else c) :: collapseSeps (d :: rest)

/-- Characters stripped from both ends by `slugify` (Python `strip("-_")`). -/
def isStripChar (c : Char) : Bool := c == '-' || c == '_'

/-- Remove leading and trailing hyphens/underscores (Python `strip("-_")`). -/
def stripEnds (l : List Char) : List Char :=
  ((l.dropWhile isStripChar).reverse.dropWhile isStripChar).reverse

/-- Embedding of `django.utils.text.slugify` on ASCII strings: lower-case,
drop non-kept characters, collapse separator runs, strip the ends. -/
def slugify (s : String) : String :=
  String.mk (stripEnds (collapseSeps ((s.data.map Char.toLower).filter slugifyKeep)))

/-- Python slice `[:180]` on a string: its first 180 characters. -/
def truncate180 (s : String) : String := String.mk (s.data.take 180)

/-! ### Decimal rendering of the loop counter

`f"{base}-{counter}"` renders `counter` in decimal. -/

/-- Decimal digit character for a value below ten. -/
def decDigit : Nat → Char
  | 0 => '0' | 1 => '1' | 2 => '2' | 3 => '3' | 4 => '4'
  | 5 => '5' | 6 => '6' | 7 => '7' | 8 => '8' | _ => '9'

/-- Decimal digit accumulation, structurally recursive on a fuel bound so
that it evaluates inside the kernel; `fuel > n` always suffices. -/
def decDigitsAux : Nat → Nat → List Char → List Char
  | 0, _, acc => acc
  | fuel + 1, n, acc =>
    if n < 10 then decDigit n :: acc
    else decDigitsAux fuel (n / 10) (decDigit (n % 10) :: acc)

/-- Decimal digit list of a natural number, most significant first. -/
def decDigits (n : Nat) : List Char := decDigitsAux (n + 1) n []

/-- Recursive specification of the decimal digit list, used in proofs
(`decDigits` is shown to agree with it). -/
def decDigitsRec (n : Nat) : List Char :=
  if _h : n < 10 then [decDigit n]
  else decDigitsRec (n / 10) ++ [decDigit (n % 10)]
decreasing_by exact Nat.div_lt_self (by omega) (by omega)

/-- Decimal string of a natural number (the f-string rendering of the
slug counter). -/
def natStr (n : Nat) : String := String.mk (decDigits n)

/-- Candidate slug number `n` probed by `Agrupacion.save`: the base slug
itself for `n = 0`, and the base with `-n` appended afterwards. -/
def slugCandidate (base : String) : Nat → String
  | 0 => base
  | Nat.succ n => base ++ "-" ++ natStr (n + 1)

/-- The probing `while` loop of `Agrupacion.save` (models.py lines 98-103),
fuel-indexed: at step `n` it tests `slugCandidate base n` against the
existing slugs; on a hit it moves to the next candidate (the loop body sets
`slug = f"{base}-{counter}"` and increments `counter`), otherwise it stops
with the current candidate.  `none` means the fuel ran out. -/
def slugProbe (ex : List String) (base : String) : Nat → Nat → Option String
  | 0, _ => none
  | fuel + 1, n =>
    if slugCandidate base n ∈ ex then slugProbe ex base fuel (n + 1)
    else some (slugCandidate base n)

/-- Slug assigned by `Agrupacion.save` when the slug field is empty:
`base = slugify(self.nombre)[:180]`, then the probe loop over the existing
slugs.  Fuel one past the number of existing slugs suffices (proved below);
the default is never reached. -/
def generateSlug (ex : List String) (nombre : String) : String :=
  (slugProbe ex (truncate180 (slugify nombre)) (ex.length + 1) 0).getD
    (truncate180 (slugify nombre))

/-! ### Unsaved model instances

A Python model instance before its first save has `pk = None`. -/

/-- Unsaved `ArtistProfile` instance. -/
structure ArtistProfile where
  pk : Option Nat
  user : Nat
  nombre_artistico : Option String
  descripcion : Option String
deriving DecidableEq

/-- Unsaved `Agrupacion` instance. -/
structure Agrupacion where
  pk : Option Nat
  nombre : String
  slug : String
  administrador : Nat
  descripcion : Option String
deriving DecidableEq

/-- Unsaved `ArtistImage` instance. -/
structure ArtistImage where
  pk : Option Nat
  artist : Nat
  titulo : Option String
  orden : Nat
deriving DecidableEq

/-- Unsaved `GroupImage` instance. -/
structure GroupImage where
  pk : Option Nat
  agrupacion : Nat
  titulo : Option String
  orden : Nat
deriving DecidableEq

/-! ### Model operations -/

/-- Number of `Genero` associations of a saved `ArtistProfile`
(`self.generos.count()`). -/
def profileGenerosCount (db : DB) (pk : Nat) : Nat :=
  (db.profileGeneros.filter (fun pg => decide (pg.1 = pk))).length

/-- Number of `Genero` associations of a saved `Agrupacion`
(`self.generos.count()`). -/
def agrupacionGenerosCount (db : DB) (pk : Nat) : Nat :=
  (db.agrupacionGeneros.filter (fun pg => decide (pg.1 = pk))).length

/-- Number of saved `ArtistImage` rows of one artist
(`ArtistImage.objects.filter(artist=...).count()`). -/
def artistImageCount (db : DB) (a : Nat) : Nat :=
  (db.artistImages.filter (fun r => decide (r.artist = a))).length

/-- Number of saved `GroupImage` rows of one agrupacion
(`GroupImage.objects.filter(agrupacion=...).count()`). -/
def groupImageCount (db : DB) (g : Nat) : Nat :=
  (db.groupImages.filter (fun r => decide (r.agrupacion = g))).length

/-- `ArtistProfile.clean` (models.py lines 63-71): with a persisted key,
count the genre associations, otherwise use 0; more than 3 raises
`ValidationError`. -/
def ArtistProfile.clean (db : DB) (p : ArtistProfile) : Except DomainError Unit :=
  let generos_count :=
    match p.pk with
    | some pk => profileGenerosCount db pk
    | none => 0
  if generos_count > 3 then
    .error (.validationError "Un artista puede seleccionar como máximo 3 géneros.")
  else .ok ()

/-- Generic `Model.save` for `ArtistProfile` (the class defines no custom
`save`, so no validation runs): UPDATE when the instance has a key,
INSERT with a fresh key otherwise. -/
def ArtistProfile.save (db : DB) (p : ArtistProfile) : DB × ArtistProfileRow :=
  match p.pk with
  | some pk =>
    let row : ArtistProfileRow := ⟨pk, p.user, p.nombre_artistico, p.descripcion⟩
    ({ db with artistProfiles := upsert ArtistProfileRow.pk row db.artistProfiles }, row)
  | none =>
    let row : ArtistProfileRow :=
      ⟨freshPk (db.artistProfiles.map (·.pk)), p.user, p.nombre_artistico, p.descripcion⟩
    ({ db with artistProfiles := db.artistProfiles ++ [row] }, row)

/-- `Agrupacion.clean` (models.py lines 106-110): only with a persisted
key, more than 3 genre associations raises `ValidationError`. -/
def Agrupacion.clean (db : DB) (a : Agrupacion) : Except DomainError Unit :=
  match a.pk with
  | some pk =>
    if agrupacionGenerosCount db pk > 3 then
      .error (.validationError "Una agrupación puede seleccionar como máximo 3 géneros.")
    else .ok ()
  | none => .ok ()

/-- `Agrupacion.save` (models.py lines 95-104): when the slug field is
empty, derive it with the probing loop over the existing slugs; then the
write, which enforces the unique constraint on `slug` (excluding the row
being updated). -/
def Agrupacion.save (db : DB) (a : Agrupacion) : DB × Except DomainError AgrupacionRow :=
  let slug := if a.slug = "" then generateSlug (db.agrupaciones.map (·.slug)) a.nombre
              else a.slug
  match a.pk with
  | some pk =>
    if db.agrupaciones.any (fun r => decide (r.slug = slug) && decide (r.pk ≠ pk)) then
      (db, .error (.uniquenessViolation "slug"))
    else
      let row : AgrupacionRow := ⟨pk, a.nombre, slug, a.administrador, a.descripcion⟩
      ({ db with agrupaciones := upsert AgrupacionRow.pk row db.agrupaciones }, .ok row)
  | none =>
    if db.agrupaciones.any (fun r => decide (r.slug = slug)) then
      (db, .error (.uniquenessViolation "slug"))
    else
      let row : AgrupacionRow :=
        ⟨freshPk (db.agrupaciones.map (·.pk)), a.nombre, slug, a.administrador, a.descripcion⟩
      ({ db with agrupaciones := db.agrupaciones ++ [row] }, .ok row)

/-- `ArtistImage.clean` (models.py lines 125-132): count the sibling
images of the same artist — excluding the row being updated when the
instance has a key (`.exclude(pk=self.pk)`) — and raise `ValidationError`
at 5 or more. -/
def ArtistImage.clean (db : DB) (img : ArtistImage) : Except DomainError Unit :=
  let existing :=
    match img.pk with
    | some pk =>
      ((db.artistImages.filter (fun r => decide (r.artist = img.artist))).filter
        (fun r => decide (r.pk ≠ pk))).length
    | none =>
      (db.artistImages.filter (fun r => decide (r.artist = img.artist))).length
  if existing ≥ 5 then
    .error (.validationError "Un artista puede subir máximo 5 imágenes.")
  else .ok ()

/-- `ArtistImage.save` (models.py lines 134-136): run `clean` first; only
when it passes, write the row (UPDATE with a key, INSERT otherwise). -/
def ArtistImage.save (db : DB) (img : ArtistImage) : DB × Except DomainError ArtistImageRow :=
  match ArtistImage.clean db img with
  | .error e => (db, .error e)
  | .ok _ =>
    match img.pk with
    | some pk =>
      let row : ArtistImageRow := ⟨pk, img.artist, img.titulo, img.orden⟩
      ({ db with artistImages := upsert ArtistImageRow.pk row db.artistImages }, .ok row)
    | none =>
      let row : ArtistImageRow :=
        ⟨freshPk (db.artistImages.map (·.pk)), img.artist, img.titulo, img.orden⟩
      ({ db with artistImages := db.artistImages ++ [row] }, .ok row)

/-- `GroupImage.clean` (models.py lines 148-155): same counting check as
`ArtistImage.clean`, scoped to the owning `Agrupacion`. -/
def GroupImage.clean (db : DB) (img : GroupImage) : Except DomainError Unit :=
  let existing :=
    match img.pk with
    | some pk =>
      ((db.groupImages.filter (fun r => decide (r.agrupacion = img.agrupacion))).filter
        (fun r => decide (r.pk ≠ pk))).length
    | none =>
      (db.groupImages.filter (fun r => decide (r.agrupacion = img.agrupacion))).length
  if existing ≥ 5 then
    .error (.validationError "Una agrupación puede subir máximo 5 imágenes.")
  else .ok ()

/-- `GroupImage.save` (models.py lines 157-159): run `clean` first; only
when it passes, write the row. -/
def GroupImage.save (db : DB) (img : GroupImage) : DB × Except DomainError GroupImageRow :=
  match GroupImage.clean db img with
  | .error e => (db, .error e)
  | .ok _ =>
    match img.pk with
    | some pk =>
      let row : GroupImageRow := ⟨pk, img.agrupacion, img.titulo, img.orden⟩
      ({ db with groupImages := upsert GroupImageRow.pk row db.groupImages }, .ok row)
    | none =>
      let row : GroupImageRow :=
        ⟨freshPk (db.groupImages.map (·.pk)), img.agrupacion, img.titulo, img.orden⟩
      ({ db with groupImages := db.groupImages ++ [row] }, .ok row)

/-- Creation of a `CustomUser`: the storage engine rejects a duplicate
`username` (unique via `AbstractUser`) or a duplicate `email`
(`models.EmailField(unique=True)`, models.py line 14). -/
def CustomUser.create (db : DB) (username email : String) : DB × Except DomainError UserRow :=
  if db.users.any (fun u => decide (u.username = username)) then
    (db, .error (.uniquenessViolation "username"))
  else if db.users.any (fun u => decide (u.email = email)) then
    (db, .error (.uniquenessViolation "email"))
  else
    let row : UserRow := ⟨freshPk (db.users.map (·.pk)), username, email⟩
    ({ db with users := db.users ++ [row] }, .ok row)

/-- Deletion of a `CustomUser` with `on_delete=CASCADE` on every foreign
key reaching it: its `ArtistProfile` rows go, and with them their
`ArtistImage`/`ArtistSocial` rows and m2m rows; its administered
`Agrupacion` rows go, and with them their `GroupImage`/`GroupSocial` rows
and m2m rows. -/
def CustomUser.delete (db : DB) (pk : Nat) : DB :=
  let profilePks := (db.artistProfiles.filter (fun p => decide (p.user = pk))).map (·.pk)
  let agrPks := (db.agrupaciones.filter (fun a => decide (a.administrador = pk))).map (·.pk)
  { db with
    users := db.users.filter (fun u => decide (u.pk ≠ pk)),
    artistProfiles := db.artistProfiles.filter (fun p => decide (p.user ≠ pk)),
    agrupaciones := db.agrupaciones.filter (fun a => decide (a.administrador ≠ pk)),
    artistImages := db.artistImages.filter (fun i => decide (i.artist ∉ profilePks)),
    artistSocials := db.artistSocials.filter (fun s => decide (s.artist ∉ profilePks)),
    groupImages := db.groupImages.filter (fun i => decide (i.agrupacion ∉ agrPks)),
    groupSocials := db.groupSocials.filter (fun s => decide (s.agrupacion ∉ agrPks)),
    profileGeneros := db.profileGeneros.filter (fun pg => decide (pg.1 ∉ profilePks)),
    agrupacionGeneros := db.agrupacionGeneros.filter (fun pg => decide (pg.1 ∉ agrPks)),
    agrupacionMiembros :=
      db.agrupacionMiembros.filter (fun m => decide (m.1 ∉ agrPks ∧ m.2 ∉ profilePks)) }

/-- Deletion of a `LineaArtistica`: `Genero.linea` (models.py line 37) has
`on_delete=PROTECT`, so the delete raises `ProtectedError` while any
`Genero` references the line, and otherwise removes the row. -/
def LineaArtistica.delete (db : DB) (pk : Nat) : DB × Except DomainError Unit :=
  if db.generos.any (fun g => decide (g.linea = pk)) then
    (db, .error .protectedError)
  else
    ({ db with lineas := db.lineas.filter (fun l => decide (l.pk ≠ pk)) }, .ok ())

/-! ### Sample database states, used to instantiate the theorems -/

/-- Empty database. -/
def emptyDB : DB := ⟨[], [], [], [], [], [], [], [], [], [], [], []⟩

/-- Database holding four images of the artist profile with key 7. -/
def dbFourImages : DB :=
  { emptyDB with artistImages :=
      [⟨1, 7, none, 0⟩, ⟨2, 7, none, 0⟩, ⟨3, 7, none, 0⟩, ⟨4, 7, none, 0⟩] }

/-- Database holding five images of the artist profile with key 7 and five
images of the agrupacion with key 9. -/
def dbFiveImages : DB :=
  { emptyDB with
      artistImages :=
        [⟨1, 7, none, 0⟩, ⟨2, 7, none, 0⟩, ⟨3, 7, none, 0⟩, ⟨4, 7, none, 0⟩, ⟨5, 7, none, 0⟩],
      groupImages :=
        [⟨1, 9, none, 0⟩, ⟨2, 9, none, 0⟩, ⟨3, 9, none, 0⟩, ⟨4, 9, none, 0⟩, ⟨5, 9, none, 0⟩] }

/-- Database with one agrupacion whose slug does not collide with the
slugs derived from the name `Los Trovadores`. -/
def dbOneAgr : DB := { emptyDB with agrupaciones := [⟨1, "Otros", "otros", 1, none⟩] }

/-- Database where profile 1 and agrupacion 2 each have four genre
associations, two artistic lines of which only line 1 has genres, one
user with a profile, an image, a social link and an administered
agrupacion. -/
def dbRich : DB :=
  { users := [⟨1, "ana", "ana@mail.com"⟩, ⟨2, "bob", "bob@mail.com"⟩],
    lineas := [⟨1, "Musica"⟩, ⟨2, "Danza"⟩],
    generos := [⟨1, "Rock", 1⟩],
    artistProfiles := [⟨1, 1, none, none⟩],
    agrupaciones := [⟨2, "Grupo", "grupo", 1, none⟩],
    artistImages := [⟨1, 1, none, 0⟩],
    groupImages := [⟨1, 2, none, 0⟩],
    artistSocials := [⟨1, 1, "other", "https://x.example"⟩],
    groupSocials := [⟨1, 2, "other", "https://y.example"⟩],
    profileGeneros := [(1, 1), (1, 2), (1, 3), (1, 4)],
    agrupacionGeneros := [(2, 1), (2, 2), (2, 3), (2, 4)],
    agrupacionMiembros := [(2, 1)] }

/-! ### Value of a decimal digit list, used to invert the rendering -/

/-- Numeric value of a decimal digit character. -/
def digVal (c : Char) : Nat := c.toNat - 48

/-- Numeric value of a decimal digit list, most significant first. -/
def digitsVal (l : List Char) : Nat := l.foldl (fun a c => a * 10 + digVal c) 0

/-! ### Lemmas: the decimal rendering is injective -/

theorem decDigitsAux_eq (fuel : Nat) :
    ∀ (n : Nat) (acc : List Char), n < fuel →
      decDigitsAux fuel n acc = decDigitsRec n ++ acc := by
  induction fuel with
  | zero => intro n acc h; omega
  | succ f ih =>
    intro n acc h
    rw [decDigitsAux, decDigitsRec]
    by_cases h10 : n < 10
    · simp [h10]
    · have hdiv : n / 10 < n := Nat.div_lt_self (by omega) (by omega)
      simp only [if_neg h10, dif_neg h10]
      rw [ih (n / 10) _ (by omega), List.append_assoc]
      rfl

theorem decDigits_eq_rec (n : Nat) : decDigits n = decDigitsRec n := by
  rw [decDigits, decDigitsAux_eq (n + 1) n [] (by omega), List.append_nil]

theorem digVal_decDigit (d : Nat) (h : d < 10) : digVal (decDigit d) = d := by
  interval_cases d <;> rfl

theorem digitsVal_append (l : List Char) (c : Char) :
    digitsVal (l ++ [c]) = digitsVal l * 10 + digVal c := by
  simp [digitsVal, List.foldl_append]

theorem digitsVal_decDigitsRec (n : Nat) : digitsVal (decDigitsRec n) = n := by
  induction n using Nat.strong_induction_on with
  | _ n ih =>
    rw [decDigitsRec]
    by_cases h10 : n < 10
    · simp [h10, digitsVal, digVal_decDigit n h10]
    · have hdiv : n / 10 < n := Nat.div_lt_self (by omega) (by omega)
      rw [dif_neg h10, digitsVal_append, ih (n / 10) hdiv,
        digVal_decDigit (n % 10) (Nat.mod_lt n (by omega))]
      omega

theorem natStr_inj {m n : Nat} (h : natStr m = natStr n) : m = n := by
  have hd : decDigits m = decDigits n := congrArg String.data h
  rw [decDigits_eq_rec, decDigits_eq_rec] at hd
  rw [← digitsVal_decDigitsRec m, ← digitsVal_decDigitsRec n, hd]

/-! ### Lemmas: the probing loop of `Agrupacion.save` -/

theorem slugCandidate_inj (base : String) :
    Function.Injective (slugCandidate base) := by
  intro j k h
  match j, k with
  | 0, 0 => rfl
  | 0, k + 1 =>
    exfalso
    have hl := congrArg (fun s => s.data.length) h
    simp [slugCandidate, List.length_append] at hl
  | j + 1, 0 =>
    exfalso
    have hl := congrArg (fun s => s.data.length) h
    simp [slugCandidate, List.length_append] at hl
  | j + 1, k + 1 =>
    have hd := congrArg String.data h
    simp only [slugCandidate, String.data_append, List.append_assoc] at hd
    have hne := List.append_cancel_left hd
    have hne2 := List.append_cancel_left hne
    have : natStr (j + 1) = natStr (k + 1) := by
      apply congrArg String.mk
      exact hne2
    have := natStr_inj this
    omega

theorem exists_free_candidate (ex : List String) (base : String) :
    ∃ k, k ≤ ex.length ∧ slugCandidate base k ∉ ex := by
  by_contra hc
  push_neg at hc
  have hnd : ((List.range (ex.length + 1)).map (slugCandidate base)).Nodup :=
    (List.nodup_range _).map (slugCandidate_inj base)
  have hsub : (List.range (ex.length + 1)).map (slugCandidate base) ⊆ ex := by
    intro x hx
    obtain ⟨k, hk, rfl⟩ := List.mem_map.mp hx
    exact hc k (Nat.lt_succ_iff.mp (List.mem_range.mp hk))
  have hlen := (List.subperm_of_subset hnd hsub).length_le
  simp at hlen

theorem slugProbe_reaches (ex : List String) (base : String)
    (hex : ∃ k, slugCandidate base k ∉ ex) :
    ∀ fuel n, Nat.find hex < n + fuel → n ≤ Nat.find hex →
      slugProbe ex base fuel n = some (slugCandidate base (Nat.find hex)) := by
  intro fuel
  induction fuel with
  | zero => intro n h1 h2; omega
  | succ f ih =>
    intro n h1 h2
    by_cases hn : n = Nat.find hex
    · subst hn
      rw [slugProbe, if_neg (Nat.find_spec hex)]
    · have hlt : n < Nat.find hex := by omega
      have hmem : slugCandidate base n ∈ ex := not_not.mp (Nat.find_min hex hlt)
      rw [slugProbe, if_pos hmem]
      exact ih (n + 1) (by omega) (by omega)

theorem generateSlug_spec (ex : List String) (nombre : String) :
    ∃ k, (∀ fuel, ex.length + 1 ≤ fuel →
        slugProbe ex (truncate180 (slugify nombre)) fuel 0 =
          some (slugCandidate (truncate180 (slugify nombre)) k)) ∧
      generateSlug ex nombre = slugCandidate (truncate180 (slugify nombre)) k ∧
      slugCandidate (truncate180 (slugify nombre)) k ∉ ex ∧
      (∀ j < k, slugCandidate (truncate180 (slugify nombre)) j ∈ ex) := by
  obtain ⟨m, hm, hfree⟩ := exists_free_candidate ex (truncate180 (slugify nombre))
  have hex : ∃ k, slugCandidate (truncate180 (slugify nombre)) k ∉ ex := ⟨m, hfree⟩
  have hle : Nat.find hex ≤ m := Nat.find_min' hex hfree
  have hprobe : ∀ fuel, ex.length + 1 ≤ fuel →
      slugProbe ex (truncate180 (slugify nombre)) fuel 0 =
        some (slugCandidate (truncate180 (slugify nombre)) (Nat.find hex)) := by
    intro fuel hf
    exact slugProbe_reaches ex (truncate180 (slugify nombre)) hex fuel 0 (by omega)
      (Nat.zero_le _)
  refine ⟨Nat.find hex, hprobe, ?_, Nat.find_spec hex, ?_⟩
  · rw [generateSlug, hprobe (ex.length + 1) (Nat.le_refl _), Option.getD_some]
  · intro j hj
    exact not_not.mp (Nat.find_min hex hj)

theorem generateSlug_eq (ex : List String) (nombre : String) (k : Nat)
    (hfree : slugCandidate (truncate180 (slugify nombre)) k ∉ ex)
    (hmem : ∀ j < k, slugCandidate (truncate180 (slugify nombre)) j ∈ ex) :
    generateSlug ex nombre = slugCandidate (truncate180 (slugify nombre)) k := by
  obtain ⟨k2, _, heq, hfree2, hmem2⟩ := generateSlug_spec ex nombre
  have hkk : k2 = k := by
    rcases Nat.lt_trichotomy k2 k with h | h | h
    · exact absurd (hmem k2 h) hfree2
    · exact h
    · exact absurd (hmem2 k h) hfree
  rw [heq, hkk]

theorem generateSlug_not_mem (ex : List String) (nombre : String) :
    generateSlug ex nombre ∉ ex := by
  obtain ⟨k, _, heq, hfree, _⟩ := generateSlug_spec ex nombre
  rw [heq]
  exact hfree

/-! ### Lemmas: counting with one row excluded, membership after a write -/

theorem length_filter_ne {α : Type} (pk : α → Nat) :
    ∀ (l : List α), (l.map pk).Nodup → ∀ p, (∃ r ∈ l, pk r = p) →
      (l.filter (fun x => decide (pk x ≠ p))).length + 1 = l.length := by
  intro l
  induction l with
  | nil => intro _ p h; simp at h
  | cons hd tl ih =>
    intro hnd p hex
    rw [List.map_cons, List.nodup_cons] at hnd
    obtain ⟨hhd, htl⟩ := hnd
    obtain ⟨r, hr, hpk⟩ := hex
    subst hpk
    rcases List.mem_cons.mp hr with rfl | hrt
    · have h1 : (decide (pk r ≠ pk r)) = false := by simp
      rw [List.filter_cons, h1]
      simp only [Bool.false_eq_true, if_false]
      have h2 : tl.filter (fun x => decide (pk x ≠ pk r)) = tl := by
        apply List.filter_eq_self.mpr
        intro a ha
        simp only [decide_eq_true_eq]
        intro hc
        exact hhd (hc ▸ List.mem_map_of_mem pk ha)
      rw [h2, List.length_cons]
    · have hne : pk hd ≠ pk r := fun hc => hhd (hc ▸ List.mem_map_of_mem pk hrt)
      have h1 : (decide (pk hd ≠ pk r)) = true := by simp [hne]
      rw [List.filter_cons, h1]
      simp only [if_true]
      rw [List.length_cons, List.length_cons, ← ih htl (pk r) ⟨r, hrt, rfl⟩]

theorem map_nodup_filter {α : Type} (pk : α → Nat) (q : α → Bool) (l : List α)
    (h : (l.map pk).Nodup) : ((l.filter q).map pk).Nodup :=
  h.sublist ((List.filter_sublist l).map pk)

theorem mem_upsert_self {α : Type} (pk : α → Nat) (row : α) (l : List α) :
    row ∈ upsert pk row l := by
  rw [upsert]
  split
  · rename_i h
    obtain ⟨r, hr, hpk⟩ := List.any_eq_true.mp h
    refine List.mem_map.mpr ⟨r, hr, ?_⟩
    rw [if_pos (of_decide_eq_true hpk)]
  · exact List.mem_append.mpr (Or.inr (List.mem_singleton.mpr rfl))

theorem agrupacion_save_fresh (db : DB) (a : Agrupacion) (hpk : a.pk = none)
    (hslug : a.slug = "") :
    Agrupacion.save db a =
      ({ db with agrupaciones := db.agrupaciones ++
          [⟨freshPk (db.agrupaciones.map (·.pk)), a.nombre,
            generateSlug (db.agrupaciones.map (·.slug)) a.nombre, a.administrador,
            a.descripcion⟩] },
        .ok ⟨freshPk (db.agrupaciones.map (·.pk)), a.nombre,
          generateSlug (db.agrupaciones.map (·.slug)) a.nombre, a.administrador,
          a.descripcion⟩) := by
  have hany : db.agrupaciones.any
      (fun r => decide (r.slug = generateSlug (db.agrupaciones.map (·.slug)) a.nombre)) =
        false := by
    rw [List.any_eq_false]
    intro r hr
    simp only [decide_eq_true_eq]
    intro hc
    exact generateSlug_not_mem (db.agrupaciones.map (·.slug)) a.nombre
      (hc ▸ List.mem_map_of_mem (·.slug) hr)
  simp [Agrupacion.save, hpk, hslug, hany]

/-! ### The claims -/

/-- C10: for every finite list of already-existing slugs and every name, the
probing loop of `Agrupacion.save` terminates — any fuel beyond the number of
existing slugs makes `slugProbe` return — and the slug it assigns
(`generateSlug`) is the first candidate in the sequence `base`, `base-1`,
`base-2`, … (`base` the slugified name truncated to 180 characters) that is
not among the existing slugs; in particular it differs from every existing
slug. -/
theorem slugProbeTerminatesFirstFree (ex : List String) (nombre : String) :
    ∃ k, (∀ fuel, ex.length + 1 ≤ fuel →
        slugProbe ex (truncate180 (slugify nombre)) fuel 0 =
          some (slugCandidate (truncate180 (slugify nombre)) k)) ∧
      generateSlug ex nombre = slugCandidate (truncate180 (slugify nombre)) k ∧
      slugCandidate (truncate180 (slugify nombre)) k ∉ ex ∧
      (∀ j < k, slugCandidate (truncate180 (slugify nombre)) j ∈ ex) :=
  generateSlug_spec ex nombre

/-- Witness for C10 at a concrete slug list and name. -/
theorem slugProbeTerminatesFirstFree_witness :
    ∃ k, (∀ fuel, (["los-trovadores"] : List String).length + 1 ≤ fuel →
        slugProbe ["los-trovadores"] (truncate180 (slugify "Los Trovadores")) fuel 0 =
          some (slugCandidate (truncate180 (slugify "Los Trovadores")) k)) ∧
      generateSlug ["los-trovadores"] "Los Trovadores" =
        slugCandidate (truncate180 (slugify "Los Trovadores")) k ∧
      slugCandidate (truncate180 (slugify "Los Trovadores")) k ∉ (["los-trovadores"] : List String) ∧
      (∀ j < k, slugCandidate (truncate180 (slugify "Los Trovadores")) j ∈
        (["los-trovadores"] : List String)) :=
  slugProbeTerminatesFirstFree ["los-trovadores"] "Los Trovadores"

/-- C9: creating a `CustomUser` whose email equals the email of an existing user
fails with a uniqueness violation — whatever the usernames — and leaves the
stored state unchanged. -/
theorem duplicateEmailRejected (db : DB) (username email : String)
    (h : ∃ v ∈ db.users, v.email = email) :
    (∃ f, (CustomUser.create db username email).2 = .error (.uniquenessViolation f)) ∧
    (CustomUser.create db username email).1 = db := by
  rw [CustomUser.create]
  by_cases hu : db.users.any (fun u => decide (u.username = username)) = true
  · rw [if_pos hu]
    exact ⟨⟨"username", rfl⟩, rfl⟩
  · rw [if_neg hu]
    obtain ⟨v, hv, hve⟩ := h
    rw [if_pos (List.any_eq_true.mpr ⟨v, hv, decide_eq_true hve⟩)]
    exact ⟨⟨"email", rfl⟩, rfl⟩

/-- Witness for C9: a second user with the email of `ana` but another
username is rejected and the database is unchanged. -/
theorem duplicateEmailRejected_witness :
    (∃ f, (CustomUser.create dbRich "carla" "ana@mail.com").2 =
      .error (.uniquenessViolation f)) ∧
    (CustomUser.create dbRich "carla" "ana@mail.com").1 = dbRich :=
  duplicateEmailRejected dbRich "carla" "ana@mail.com"
    ⟨⟨1, "ana", "ana@mail.com"⟩, by decide, rfl⟩

/-- C7: deleting a `LineaArtistica` referenced by at least one `Genero`
fails with `ProtectedError` and leaves the whole state (the line and its
genres included) in place; deleting a line referenced by no `Genero`
succeeds, removing the line and touching no `Genero` row. -/
theorem protectedLineaDelete (db : DB) (pk : Nat) :
    ((∃ g ∈ db.generos, g.linea = pk) →
      LineaArtistica.delete db pk = (db, .error .protectedError)) ∧
    ((∀ g ∈ db.generos, g.linea ≠ pk) →
      (LineaArtistica.delete db pk).2 = .ok () ∧
      (LineaArtistica.delete db pk).1.generos = db.generos ∧
      (LineaArtistica.delete db pk).1.lineas =
        db.lineas.filter (fun l => decide (l.pk ≠ pk))) := by
  constructor
  · rintro ⟨g, hg, hl⟩
    rw [LineaArtistica.delete, if_pos (List.any_eq_true.mpr ⟨g, hg, decide_eq_true hl⟩)]
  · intro h
    have hany : db.generos.any (fun g => decide (g.linea = pk)) = false := by
      rw [List.any_eq_false]
      intro g hg
      simp only [decide_eq_true_eq]
      exact h g hg
    rw [LineaArtistica.delete, if_neg (by rw [hany]; exact Bool.false_ne_true)]
    exact ⟨rfl, rfl, rfl⟩

/-- Witness for C7: line 1 of the sample database has a genre, so its
delete fails protected; line 2 has none, so its delete succeeds. -/
theorem protectedLineaDelete_witness :
    LineaArtistica.delete dbRich 1 = (dbRich, .error .protectedError) ∧
    (LineaArtistica.delete dbRich 2).2 = .ok () :=
  ⟨(protectedLineaDelete dbRich 1).1 ⟨⟨1, "Rock", 1⟩, by decide, rfl⟩,
    ((protectedLineaDelete dbRich 2).2 (by decide)).1⟩

/-- C4: for a saved `ArtistProfile` or `Agrupacion` (persisted key),
`clean` raises `ValidationError` exactly when the genre-association count
exceeds 3; without a persisted key, `clean` never raises. -/
theorem genreLimitOnClean (db : DB) (p : ArtistProfile) (a : Agrupacion) :
    (p.pk = none → ArtistProfile.clean db p = .ok ()) ∧
    (∀ k, p.pk = some k →
      (ArtistProfile.clean db p =
          .error (.validationError "Un artista puede seleccionar como máximo 3 géneros.") ↔
        3 < profileGenerosCount db k)) ∧
    (a.pk = none → Agrupacion.clean db a = .ok ()) ∧
    (∀ k, a.pk = some k →
      (Agrupacion.clean db a =
          .error (.validationError "Una agrupación puede seleccionar como máximo 3 géneros.") ↔
        3 < agrupacionGenerosCount db k)) := by
  refine ⟨?_, ?_, ?_, ?_⟩
  · intro h
    simp [ArtistProfile.clean, h]
  · intro k h
    by_cases hc : 3 < profileGenerosCount db k
    · simp [ArtistProfile.clean, h, hc]
    · simp [ArtistProfile.clean, h, hc]
  · intro h
    simp [Agrupacion.clean, h]
  · intro k h
    by_cases hc : 3 < agrupacionGenerosCount db k
    · simp [Agrupacion.clean, h, hc]
    · simp [Agrupacion.clean, h, hc]

/-- Witness for C4: profile 1 and agrupacion 2 of the sample database have
four genre associations, so their `clean` raises; unsaved instances pass. -/
theorem genreLimitOnClean_witness :
    ArtistProfile.clean dbRich ⟨some 1, 1, none, none⟩ =
      .error (.validationError "Un artista puede seleccionar como máximo 3 géneros.") ∧
    Agrupacion.clean dbRich ⟨some 2, "Grupo", "grupo", 1, none⟩ =
      .error (.validationError "Una agrupación puede seleccionar como máximo 3 géneros.") ∧
    ArtistProfile.clean dbRich ⟨none, 1, none, none⟩ = .ok () :=
  ⟨((genreLimitOnClean dbRich ⟨some 1, 1, none, none⟩
      ⟨some 2, "Grupo", "grupo", 1, none⟩).2.1 1 rfl).mpr (by decide),
    ((genreLimitOnClean dbRich ⟨some 1, 1, none, none⟩
      ⟨some 2, "Grupo", "grupo", 1, none⟩).2.2.2 2 rfl).mpr (by decide),
    (genreLimitOnClean dbRich ⟨none, 1, none, none⟩
      ⟨some 2, "Grupo", "grupo", 1, none⟩).1 rfl⟩

/-- C6: the image-count validation runs inside every `ArtistImage` and
`GroupImage` save, before the write: when `clean` raises, the save returns
the very error and the stored state is unchanged.  By contrast the generic
save path of `ArtistProfile` never invokes the genre-count check: even
when `clean` would raise, the profile row is written. -/
theorem imageValidationAtomicSave (db : DB) (img : ArtistImage) (gimg : GroupImage)
    (p : ArtistProfile) (e1 e2 e3 : DomainError) :
    (ArtistImage.clean db img = .error e1 → ArtistImage.save db img = (db, .error e1)) ∧
    (GroupImage.clean db gimg = .error e2 → GroupImage.save db gimg = (db, .error e2)) ∧
    (ArtistProfile.clean db p = .error e3 →
      (ArtistProfile.save db p).2 ∈ (ArtistProfile.save db p).1.artistProfiles) := by
  refine ⟨?_, ?_, ?_⟩
  · intro h
    rw [ArtistImage.save, h]
  · intro h
    rw [GroupImage.save, h]
  · intro _
    rcases hpk : p.pk with _ | pk
    · simp [ArtistProfile.save, hpk]
    · simp only [ArtistProfile.save, hpk]
      exact mem_upsert_self ArtistProfileRow.pk _ _

/-- Witness for C6: with five images of artist 7 stored, the save of a sixth
returns the validation error and the unchanged database; the profile with
four genre associations fails `clean` yet its generic save writes the row. -/
theorem imageValidationAtomicSave_witness :
    ArtistImage.save dbFiveImages ⟨none, 7, none, 0⟩ =
      (dbFiveImages, .error (.validationError "Un artista puede subir máximo 5 imágenes.")) ∧
    (ArtistProfile.save dbRich ⟨some 1, 1, none, none⟩).2 ∈
      (ArtistProfile.save dbRich ⟨some 1, 1, none, none⟩).1.artistProfiles :=
  ⟨(imageValidationAtomicSave dbFiveImages ⟨none, 7, none, 0⟩ ⟨none, 9, none, 0⟩
      ⟨some 1, 1, none, none⟩ (.validationError "Un artista puede subir máximo 5 imágenes.")
      .protectedError .protectedError).1 (by decide),
    (imageValidationAtomicSave dbRich ⟨none, 7, none, 0⟩ ⟨none, 9, none, 0⟩
      ⟨some 1, 1, none, none⟩ .protectedError .protectedError
      (.validationError "Un artista puede seleccionar como máximo 3 géneros.")).2.2 (by decide)⟩

/-- C8: deleting a `CustomUser` cascades: afterwards no user with that key,
no `ArtistProfile` owned by it, none of the `ArtistImage` or
`ArtistSocial` rows of those profiles, and no `Agrupacion` it administered remain. -/
theorem userDeleteCascades (db : DB) (u : Nat) :
    (∀ v ∈ (CustomUser.delete db u).users, v.pk ≠ u) ∧
    (∀ p ∈ (CustomUser.delete db u).artistProfiles, p.user ≠ u) ∧
    (∀ p ∈ db.artistProfiles, p.user = u →
      (∀ i ∈ (CustomUser.delete db u).artistImages, i.artist ≠ p.pk) ∧
      (∀ s ∈ (CustomUser.delete db u).artistSocials, s.artist ≠ p.pk)) ∧
    (∀ a ∈ (CustomUser.delete db u).agrupaciones, a.administrador ≠ u) := by
  refine ⟨?_, ?_, ?_, ?_⟩
  · intro v hv
    simp only [CustomUser.delete, List.mem_filter, decide_eq_true_eq] at hv
    exact hv.2
  · intro p hp
    simp only [CustomUser.delete, List.mem_filter, decide_eq_true_eq] at hp
    exact hp.2
  · intro p hp hpu
    constructor
    · intro i hi
      simp only [CustomUser.delete, List.mem_filter, decide_eq_true_eq] at hi
      intro hc
      exact hi.2 (hc ▸ List.mem_map_of_mem (·.pk)
        (List.mem_filter.mpr ⟨hp, decide_eq_true hpu⟩))
    · intro s hs
      simp only [CustomUser.delete, List.mem_filter, decide_eq_true_eq] at hs
      intro hc
      exact hs.2 (hc ▸ List.mem_map_of_mem (·.pk)
        (List.mem_filter.mpr ⟨hp, decide_eq_true hpu⟩))
  · intro a ha
    simp only [CustomUser.delete, List.mem_filter, decide_eq_true_eq] at ha
    exact ha.2

/-- Witness for C8: deleting user 1 of the sample database, whose profile 1
owns an image and a social link and who administers agrupacion 2. -/
theorem userDeleteCascades_witness :
    (∀ v ∈ (CustomUser.delete dbRich 1).users, v.pk ≠ 1) ∧
    (∀ i ∈ (CustomUser.delete dbRich 1).artistImages, i.artist ≠ 1) ∧
    (∀ s ∈ (CustomUser.delete dbRich 1).artistSocials, s.artist ≠ 1) ∧
    (∀ a ∈ (CustomUser.delete dbRich 1).agrupaciones, a.administrador ≠ 1) :=
  ⟨(userDeleteCascades dbRich 1).1,
    ((userDeleteCascades dbRich 1).2.2.1 ⟨1, 1, none, none⟩ (by decide) rfl).1,
    ((userDeleteCascades dbRich 1).2.2.1 ⟨1, 1, none, none⟩ (by decide) rfl).2,
    (userDeleteCascades dbRich 1).2.2.2⟩

/-- C1 (counterexample): with four stored images of artist 7, saving a fifth
image does not raise — it succeeds and stores the row — although the claim
demands a `ValidationError` for the 5th image (resulting count 5). -/
theorem fifthImageSucceeds_counterexample :
    artistImageCount dbFourImages 7 = 4 ∧
    (ArtistImage.save dbFourImages ⟨none, 7, none, 0⟩).2 = .ok ⟨5, 7, none, 0⟩ ∧
    (⟨5, 7, none, 0⟩ : ArtistImageRow) ∈
      (ArtistImage.save dbFourImages ⟨none, 7, none, 0⟩).1.artistImages := by
  decide

/-- C1 (amended): saving a new (6th or later) image fails with
`ValidationError` exactly when the owner already has 5 or more stored
images — that is, when the resulting count would exceed 5 — and a new 1st
through 5th image is saved and stored; likewise for `GroupImage`. -/
theorem imageLimitOnSave (db : DB) (img : ArtistImage) (gimg : GroupImage)
    (h1 : img.pk = none) (h2 : gimg.pk = none) :
    ((ArtistImage.save db img).2 =
        .error (.validationError "Un artista puede subir máximo 5 imágenes.") ↔
      5 ≤ artistImageCount db img.artist) ∧
    (artistImageCount db img.artist < 5 →
      ∃ row, (ArtistImage.save db img).2 = .ok row ∧
        row ∈ (ArtistImage.save db img).1.artistImages) ∧
    ((GroupImage.save db gimg).2 =
        .error (.validationError "Una agrupación puede subir máximo 5 imágenes.") ↔
      5 ≤ groupImageCount db gimg.agrupacion) ∧
    (groupImageCount db gimg.agrupacion < 5 →
      ∃ row, (GroupImage.save db gimg).2 = .ok row ∧
        row ∈ (GroupImage.save db gimg).1.groupImages) := by
  have hcnt : ∀ a, (List.filter (fun r => decide (r.artist = a)) db.artistImages).length =
      artistImageCount db a := fun _ => rfl
  have hgcnt : ∀ g, (List.filter (fun r => decide (r.agrupacion = g)) db.groupImages).length =
      groupImageCount db g := fun _ => rfl
  refine ⟨?_, ?_, ?_, ?_⟩
  · simp only [ArtistImage.save, ArtistImage.clean, h1, hcnt]
    by_cases h : 5 ≤ artistImageCount db img.artist
    · rw [if_pos h]
      simp [h]
    · rw [if_neg h]
      simp [h]
  · intro hlt
    simp only [ArtistImage.save, ArtistImage.clean, h1, hcnt]
    rw [if_neg (by omega)]
    exact ⟨_, rfl, by simp⟩
  · simp only [GroupImage.save, GroupImage.clean, h2, hgcnt]
    by_cases h : 5 ≤ groupImageCount db gimg.agrupacion
    · rw [if_pos h]
      simp [h]
    · rw [if_neg h]
      simp [h]
  · intro hlt
    simp only [GroupImage.save, GroupImage.clean, h2, hgcnt]
    rw [if_neg (by omega)]
    exact ⟨_, rfl, by simp⟩

/-- Witness for the amended C1: with five images of artist 7 stored, a new
image of artist 7 is rejected with the validation error. -/
theorem imageLimitOnSave_witness :
    (ArtistImage.save dbFiveImages ⟨none, 7, none, 0⟩).2 =
      .error (.validationError "Un artista puede subir máximo 5 imágenes.") :=
  (imageLimitOnSave dbFiveImages ⟨none, 7, none, 0⟩ ⟨none, 9, none, 0⟩ rfl rfl).1.mpr
    (by decide)

/-- C5: a save of an `Agrupacion` whose slug field is non-empty never
re-derives the slug: whenever the save succeeds, the stored row carries the
given slug verbatim and every other modelled field as given, and the row is
stored; moreover slug derivation plays no part in validation — `clean` is
insensitive to the slug field. -/
theorem slugOnlyDerivedWhenEmpty (db : DB) (a : Agrupacion) (h : a.slug ≠ "") :
    (∀ db2 row, Agrupacion.save db a = (db2, .ok row) →
      row.slug = a.slug ∧ row.nombre = a.nombre ∧ row.administrador = a.administrador ∧
      row.descripcion = a.descripcion ∧ row ∈ db2.agrupaciones) ∧
    (∀ s, Agrupacion.clean db { a with slug := s } = Agrupacion.clean db a) := by
  constructor
  · intro db2 row heq
    rcases hpk : a.pk with _ | pk
    · simp only [Agrupacion.save, hpk, if_neg h] at heq
      split at heq
      · simp at heq
      · simp only [Prod.mk.injEq, Except.ok.injEq] at heq
        obtain ⟨hdb, hrow⟩ := heq
        subst hdb
        subst hrow
        exact ⟨rfl, rfl, rfl, rfl, by simp⟩
    · simp only [Agrupacion.save, hpk, if_neg h] at heq
      split at heq
      · simp at heq
      · simp only [Prod.mk.injEq, Except.ok.injEq] at heq
        obtain ⟨hdb, hrow⟩ := heq
        subst hdb
        subst hrow
        exact ⟨rfl, rfl, rfl, rfl, mem_upsert_self AgrupacionRow.pk _ _⟩
  · intro s
    rfl

/-- Witness for C5: validation of an unsaved agrupacion with a non-empty
slug gives the same outcome whatever the slug field holds. -/
theorem slugOnlyDerivedWhenEmpty_witness :
    Agrupacion.clean dbRich ⟨none, "Grupo2", "cambiado", 1, none⟩ =
      Agrupacion.clean dbRich ⟨none, "Grupo2", "grupo2", 1, none⟩ :=
  (slugOnlyDerivedWhenEmpty dbRich ⟨none, "Grupo2", "grupo2", 1, none⟩ (by decide)).2
    "cambiado"

/-- C2: an image save raises the validation error exactly when the count of
the stored images of the owner, the row being updated excluded (for an update,
`pk` set), is 5 or more; in particular, updating an image of an owner that
has exactly 5 stored images (with distinct keys, one of them the updated
row) passes the check. -/
theorem imageSiblingCountExcludesSelf (db : DB) (img : ArtistImage) (gimg : GroupImage) :
    ((ArtistImage.save db img).2 =
        .error (.validationError "Un artista puede subir máximo 5 imágenes.") ↔
      5 ≤ db.artistImages.countP
        (fun r => decide (r.artist = img.artist ∧ img.pk ≠ some r.pk))) ∧
    ((GroupImage.save db gimg).2 =
        .error (.validationError "Una agrupación puede subir máximo 5 imágenes.") ↔
      5 ≤ db.groupImages.countP
        (fun r => decide (r.agrupacion = gimg.agrupacion ∧ gimg.pk ≠ some r.pk))) ∧
    (∀ p, img.pk = some p → (db.artistImages.map (·.pk)).Nodup →
      (∃ r ∈ db.artistImages, r.pk = p ∧ r.artist = img.artist) →
      artistImageCount db img.artist = 5 → ArtistImage.clean db img = .ok ()) ∧
    (∀ p, gimg.pk = some p → (db.groupImages.map (·.pk)).Nodup →
      (∃ r ∈ db.groupImages, r.pk = p ∧ r.agrupacion = gimg.agrupacion) →
      groupImageCount db gimg.agrupacion = 5 → GroupImage.clean db gimg = .ok ()) := by
  refine ⟨?_, ?_, ?_, ?_⟩
  · rcases hpk : img.pk with _ | p
    · have ha : db.artistImages.countP
          (fun r => decide (r.artist = img.artist ∧ (none : Option Nat) ≠ some r.pk)) =
          (db.artistImages.filter (fun r => decide (r.artist = img.artist))).length := by
        rw [List.countP_eq_length_filter]
        congr 1
        apply List.filter_congr
        intro r _
        simp
      rw [ha]
      simp only [ArtistImage.save, ArtistImage.clean, hpk]
      by_cases h5 : 5 ≤ (db.artistImages.filter (fun r => decide (r.artist = img.artist))).length
      · rw [if_pos h5]
        simp [h5]
      · rw [if_neg h5]
        simp [h5]
    · have ha : db.artistImages.countP
          (fun r => decide (r.artist = img.artist ∧ some p ≠ some r.pk)) =
          ((db.artistImages.filter (fun r => decide (r.artist = img.artist))).filter
            (fun r => decide (r.pk ≠ p))).length := by
        rw [List.countP_eq_length_filter, List.filter_filter]
        congr 1
        apply List.filter_congr
        intro r _
        simp [eq_comm, Bool.and_comm]
      rw [ha]
      simp only [ArtistImage.save, ArtistImage.clean, hpk]
      by_cases h5 : 5 ≤ ((db.artistImages.filter (fun r => decide (r.artist = img.artist))).filter
          (fun r => decide (r.pk ≠ p))).length
      · rw [if_pos h5]
        exact iff_of_true rfl h5
      · rw [if_neg h5]
        exact iff_of_false (by simp) h5
  · rcases hpk : gimg.pk with _ | p
    · have ha : db.groupImages.countP
          (fun r => decide (r.agrupacion = gimg.agrupacion ∧ (none : Option Nat) ≠ some r.pk)) =
          (db.groupImages.filter (fun r => decide (r.agrupacion = gimg.agrupacion))).length := by
        rw [List.countP_eq_length_filter]
        congr 1
        apply List.filter_congr
        intro r _
        simp
      rw [ha]
      simp only [GroupImage.save, GroupImage.clean, hpk]
      by_cases h5 : 5 ≤ (db.groupImages.filter
          (fun r => decide (r.agrupacion = gimg.agrupacion))).length
      · rw [if_pos h5]
        simp [h5]
      · rw [if_neg h5]
        simp [h5]
    · have ha : db.groupImages.countP
          (fun r => decide (r.agrupacion = gimg.agrupacion ∧ some p ≠ some r.pk)) =
          ((db.groupImages.filter (fun r => decide (r.agrupacion = gimg.agrupacion))).filter
            (fun r => decide (r.pk ≠ p))).length := by
        rw [List.countP_eq_length_filter, List.filter_filter]
        congr 1
        apply List.filter_congr
        intro r _
        simp [eq_comm, Bool.and_comm]
      rw [ha]
      simp only [GroupImage.save, GroupImage.clean, hpk]
      by_cases h5 : 5 ≤ ((db.groupImages.filter
          (fun r => decide (r.agrupacion = gimg.agrupacion))).filter
          (fun r => decide (r.pk ≠ p))).length
      · rw [if_pos h5]
        exact iff_of_true rfl h5
      · rw [if_neg h5]
        exact iff_of_false (by simp) h5
  · intro p hpk hnd hex hcount
    obtain ⟨r, hr, hrpk, hart⟩ := hex
    have hmem : r ∈ db.artistImages.filter (fun x => decide (x.artist = img.artist)) :=
      List.mem_filter.mpr ⟨hr, decide_eq_true hart⟩
    have hnd2 : ((db.artistImages.filter (fun x => decide (x.artist = img.artist))).map
        (·.pk)).Nodup := map_nodup_filter ArtistImageRow.pk _ _ hnd
    have hlen := length_filter_ne ArtistImageRow.pk
      (db.artistImages.filter (fun x => decide (x.artist = img.artist))) hnd2 p
      ⟨r, hmem, hrpk⟩
    simp only [artistImageCount] at hcount
    rw [hcount] at hlen
    simp only [ArtistImage.clean, hpk]
    rw [if_neg (by omega)]
  · intro p hpk hnd hex hcount
    obtain ⟨r, hr, hrpk, hart⟩ := hex
    have hmem : r ∈ db.groupImages.filter (fun x => decide (x.agrupacion = gimg.agrupacion)) :=
      List.mem_filter.mpr ⟨hr, decide_eq_true hart⟩
    have hnd2 : ((db.groupImages.filter (fun x => decide (x.agrupacion = gimg.agrupacion))).map
        (·.pk)).Nodup := map_nodup_filter GroupImageRow.pk _ _ hnd
    have hlen := length_filter_ne GroupImageRow.pk
      (db.groupImages.filter (fun x => decide (x.agrupacion = gimg.agrupacion))) hnd2 p
      ⟨r, hmem, hrpk⟩
    simp only [groupImageCount] at hcount
    rw [hcount] at hlen
    simp only [GroupImage.clean, hpk]
    rw [if_neg (by omega)]

/-- Witness for C2: updating image 3 of artist 7, who has exactly five
stored images, passes the check. -/
theorem imageSiblingCountExcludesSelf_witness :
    ArtistImage.clean dbFiveImages ⟨some 3, 7, none, 0⟩ = .ok () :=
  (imageSiblingCountExcludesSelf dbFiveImages ⟨some 3, 7, none, 0⟩ ⟨some 3, 9, none, 0⟩).2.2.1
    3 rfl (by decide) ⟨⟨3, 7, none, 0⟩, by decide, rfl, rfl⟩ (by decide)

/-- C3: in a state whose agrupacion slugs avoid `los-trovadores` and
`los-trovadores-1`, saving an agrupacion named `Los Trovadores` with empty
slug stores it under slug `los-trovadores`, and saving a second one with
the same name and empty slug stores it under `los-trovadores-1`. -/
theorem slugScenarioLosTrovadores (db : DB) (u1 u2 : Nat)
    (h : ∀ r ∈ db.agrupaciones, r.slug ≠ "los-trovadores" ∧ r.slug ≠ "los-trovadores-1") :
    ∃ db1 r1 db2 r2,
      Agrupacion.save db ⟨none, "Los Trovadores", "", u1, none⟩ = (db1, .ok r1) ∧
      r1.slug = "los-trovadores" ∧ r1 ∈ db1.agrupaciones ∧
      Agrupacion.save db1 ⟨none, "Los Trovadores", "", u2, none⟩ = (db2, .ok r2) ∧
      r2.slug = "los-trovadores-1" ∧ r2 ∈ db2.agrupaciones := by
  have hc0 : slugCandidate (truncate180 (slugify "Los Trovadores")) 0 = "los-trovadores" := by
    decide
  have hc1 : slugCandidate (truncate180 (slugify "Los Trovadores")) 1 = "los-trovadores-1" := by
    decide
  have hfree0 : slugCandidate (truncate180 (slugify "Los Trovadores")) 0 ∉
      db.agrupaciones.map (·.slug) := by
    rw [hc0]
    intro hm
    obtain ⟨r, hr, hrs⟩ := List.mem_map.mp hm
    exact (h r hr).1 hrs
  have hg1 : generateSlug (db.agrupaciones.map (·.slug)) "Los Trovadores" = "los-trovadores" :=
    (generateSlug_eq _ "Los Trovadores" 0 hfree0 (fun j hj => absurd hj (by omega))).trans hc0
  obtain ⟨db1, r1, hs1, hr1slug, hr1db⟩ : ∃ db1 r1,
      Agrupacion.save db ⟨none, "Los Trovadores", "", u1, none⟩ = (db1, .ok r1) ∧
      r1.slug = "los-trovadores" ∧ db1.agrupaciones = db.agrupaciones ++ [r1] := by
    refine ⟨_, _, agrupacion_save_fresh db _ rfl rfl, ?_, ?_⟩
    · dsimp only
      exact hg1
    · rfl
  have hex2 : db1.agrupaciones.map (·.slug) =
      db.agrupaciones.map (·.slug) ++ ["los-trovadores"] := by
    rw [hr1db, List.map_append]
    simp [hr1slug]
  have hfree1 : slugCandidate (truncate180 (slugify "Los Trovadores")) 1 ∉
      db1.agrupaciones.map (·.slug) := by
    rw [hc1, hex2]
    intro hm
    rcases List.mem_append.mp hm with hm | hm
    · obtain ⟨r, hr, hrs⟩ := List.mem_map.mp hm
      exact (h r hr).2 hrs
    · simp at hm
  have hmem1 : ∀ j < 1, slugCandidate (truncate180 (slugify "Los Trovadores")) j ∈
      db1.agrupaciones.map (·.slug) := by
    intro j hj
    have hj0 : j = 0 := by omega
    subst hj0
    rw [hc0, hex2]
    exact List.mem_append_right _ (by simp)
  have hg2 : generateSlug (db1.agrupaciones.map (·.slug)) "Los Trovadores" =
      "los-trovadores-1" :=
    (generateSlug_eq _ "Los Trovadores" 1 hfree1 hmem1).trans hc1
  obtain ⟨db2, r2, hs2, hr2slug, hr2db⟩ : ∃ db2 r2,
      Agrupacion.save db1 ⟨none, "Los Trovadores", "", u2, none⟩ = (db2, .ok r2) ∧
      r2.slug = "los-trovadores-1" ∧ db2.agrupaciones = db1.agrupaciones ++ [r2] := by
    refine ⟨_, _, agrupacion_save_fresh db1 _ rfl rfl, ?_, ?_⟩
    · dsimp only
      exact hg2
    · rfl
  exact ⟨db1, r1, db2, r2, hs1, hr1slug,
    by rw [hr1db]; exact List.mem_append_right _ (by simp),
    hs2, hr2slug,
    by rw [hr2db]; exact List.mem_append_right _ (by simp)⟩

/-- Witness for C3 in a database holding one agrupacion with another slug. -/
theorem slugScenarioLosTrovadores_witness :
    ∃ db1 r1 db2 r2,
      Agrupacion.save dbOneAgr ⟨none, "Los Trovadores", "", 1, none⟩ = (db1, .ok r1) ∧
      r1.slug = "los-trovadores" ∧ r1 ∈ db1.agrupaciones ∧
      Agrupacion.save db1 ⟨none, "Los Trovadores", "", 2, none⟩ = (db2, .ok r2) ∧
      r2.slug = "los-trovadores-1" ∧ r2 ∈ db2.agrupaciones :=
  slugScenarioLosTrovadores dbOneAgr 1 2 (by decide)
